import Mathlib

/-!
Verification development for the `stubby` call-site stubbing crate
(`src/lib.rs`).  Two components are embedded:

* the `fn_name!` name resolver — a pure text transformation over the
  fully-qualified descriptors produced by `std::any::type_name`;
* the `StubbyState` stub registry — a `BTreeMap<StubbyName, StubbyFunction>`
  in debug (test) builds, a `()` placeholder in release builds, together
  with the deliberately inert `Clone`/`PartialEq`/`Eq`/`Hash`/
  `PartialOrd`/`Ord` implementations.

Rust strings are modelled as `List Char`; every descriptor handled by the
macro is ASCII, so byte indexing (`name.len() - 3`) coincides with
character indexing.  Panics are modelled as `Except.error` carrying the
panic message.  The type-erased `Box<dyn Any>` payload is modelled as a
sigma type over a universe `Ty` of concrete payload types, with `TypeId`
comparison modelled by equality of the `Ty` tags.
-/

/-! ## Name resolver (`fn_name!`, src/lib.rs lines 36–74) -/

/-- The `"::\x7b\x7bclosure\x7d\x7d"` marker that `std::any::type_name`
appends for code nested in a closure (also for async fn bodies);
the implicit arm trims trailing copies of it (line 48). -/
def closureMarker : List Char := "::\x7b\x7bclosure\x7d\x7d".data

/-- `closureMarker` reversed, for suffix processing from the end. -/
def closureMarkerRev : List Char := closureMarker.reverse

/-- `name[..name.len() - 3]` (line 45): drop the trailing `::f`
contributed by the local marker function. -/
def dropLast3 (s : List Char) : List Char := (s.reverse.drop 3).reverse

/-- One pass of `str::trim_end_matches("::\x7b\x7bclosure\x7d\x7d")`
operating on the reversed string: repeatedly remove the marker while it
is a prefix of the reversed input. -/
def trimClosureRev (s : List Char) : List Char :=
  if h : closureMarkerRev.isPrefixOf s then
    trimClosureRev (s.drop closureMarkerRev.length)
  else s
termination_by s.length
decreasing_by
  have hlen : closureMarkerRev.length ≤ s.length :=
    (List.isPrefixOf_iff_prefix.mp h).length_le
  have hpos : 0 < closureMarkerRev.length := by decide
  simp only [List.length_drop]
  omega

/-- `name.trim_end_matches("::\x7b\x7bclosure\x7d\x7d")` (line 48). -/
def trimEndClosure (s : List Char) : List Char :=
  (trimClosureRev s.reverse).reverse

/-- The implicit arm `fn_name!()` (lines 37–50): the input is the
`type_name` descriptor of the local marker `fn f()`; the macro drops the
trailing `::f` and trims trailing closure markers. -/
def fnNameImplicit (desc : List Char) : List Char :=
  trimEndClosure (dropLast3 desc)

/-- The stateful closure passed to `trim_end_matches` in the explicit arm
(lines 61–68), run over the reversed descriptor: strip characters from
the end until a `<` has been stripped, then stop. -/
def stripRev : List Char → List Char
  | [] => []
  | c :: rest => if c = '<' then rest else stripRev rest

/-- The explicit arm `fn_name!($fn)` (lines 51–73): if the `type_name`
descriptor ends with `>`, strip the trailing characters up to and
including the first `<` met from the end; otherwise leave it unchanged. -/
def fnNameExplicit (desc : List Char) : List Char :=
  if desc.getLast? = some '>' then (stripRev desc.reverse).reverse else desc

/-! ## Stub registry, debug (test) build (src/lib.rs lines 183–545) -/

/-- The universe of payload types used to model type erasure; a `Ty` tag
plays the role of a Rust `TypeId`. -/
inductive Ty
  | tInt
  | tNat
  | tStr
  | tBool
  | tUnit
  deriving DecidableEq

/-- Concrete Lean type denoted by each tag. -/
@[reducible] def Ty.denote : Ty → Type
  | .tInt => Int
  | .tNat => Nat
  | .tStr => String
  | .tBool => Bool
  | .tUnit => Unit

/-- `Box<dyn Any>`: a value tagged with its runtime type. -/
def DynAny : Type := (t : Ty) × t.denote

/-- `Box::downcast::<T>` : succeeds exactly when the stored tag is `T`. -/
def downcast (T : Ty) (v : DynAny) : Option T.denote :=
  if h : v.1 = T then some (h ▸ v.2) else none

/-- `StubbyName` (line 189): an interned string naming a function. -/
abbrev StubbyName : Type := String

/-- `type StubbyFunction = Box<dyn Fn() -> Box<dyn Any> + Send + Sync>`
(line 205). -/
def StubbyFunction : Type := Unit → DynAny

/-- Debug-build `StubbyStateInner` (line 210):
`BTreeMap<StubbyName, StubbyFunction>` modelled extensionally by its
lookup function. -/
def StubbyStateInner : Type := StubbyName → Option StubbyFunction

/-- `BTreeMap::insert`: map the key to the new value, leave others. -/
def btreeInsert (m : StubbyStateInner) (k : StubbyName) (f : StubbyFunction) :
    StubbyStateInner :=
  fun k' => if k' = k then some f else m k'

/-- `StubbyState` (line 239), debug-build shape. -/
structure StubbyState where
  inner : StubbyStateInner

/-- `StubbyState::default` / `StubbyState::new` (lines 243–245). -/
def StubbyState.new : StubbyState := ⟨fun _ => none⟩

/-- `cloneable_into_stubby_function` (lines 541–545): box a closure that
clones `obj` on every call; cloning a value yields an equal value. -/
def cloneableIntoStubbyFunction (T : Ty) (obj : T.denote) : StubbyFunction :=
  fun _ => ⟨T, obj⟩

/-- `StubbyState::insert` (lines 296–303), debug build. -/
def StubbyState.insert (s : StubbyState) (name : StubbyName) (T : Ty)
    (obj : T.denote) : StubbyState :=
  ⟨btreeInsert s.inner name (cloneableIntoStubbyFunction T obj)⟩

/-- `StubbyState::insert_with` (lines 385–392), debug build: store a
closure invoking the producer afresh on each retrieval. -/
def StubbyState.insertWith (s : StubbyState) (name : StubbyName) (T : Ty)
    (func : Unit → T.denote) : StubbyState :=
  ⟨btreeInsert s.inner name (fun u => ⟨T, func u⟩)⟩

/-- `StubbyState::get` (lines 469–476), debug build.  Absent name:
`None`.  Present name: invoke the stored closure and downcast; a failed
downcast is the panic `"incorrect type supplied for {name}"`, modelled
as `Except.error`. -/
def StubbyState.get (T : Ty) (s : StubbyState) (name : StubbyName) :
    Except String (Option T.denote) :=
  match s.inner name with
  | none => .ok none
  | some stubbyFn =>
    match downcast T (stubbyFn ()) with
    | some t => .ok (some t)
    | none => .error ("incorrect type supplied for " ++ name)

/-- The `stub!` macro body (lines 162–181): unconditional lookup;
`get(name).unwrap_or_else(|| panic!("no stub configured for {name}"))`. -/
def stubLookup (T : Ty) (s : StubbyState) (name : StubbyName) :
    Except String T.denote :=
  match s.get T name with
  | .ok (some t) => .ok t
  | .ok none => .error ("no stub configured for " ++ name)
  | .error e => .error e

/-- `impl Clone for StubbyState` (lines 505–510): returns an empty
registry. -/
def StubbyState.clone (_ : StubbyState) : StubbyState := StubbyState.new

/-- `impl PartialEq for StubbyState` (lines 512–517): always true. -/
def StubbyState.beq (_ _ : StubbyState) : Bool := true

/-- `impl Hash for StubbyState` (lines 521–524): writes nothing to the
hasher, modelled as the identity on the hasher's byte stream. -/
def StubbyState.hashWrite (_ : StubbyState) (hasherState : List Nat) :
    List Nat := hasherState

/-- `impl Ord for StubbyState` (lines 533–538): always `Equal`. -/
def StubbyState.cmp (_ _ : StubbyState) : Ordering := Ordering.eq

/-- `impl PartialOrd for StubbyState` (lines 526–531):
`Some(self.cmp(other))`. -/
def StubbyState.partialCmp (a b : StubbyState) : Option Ordering :=
  some (a.cmp b)

/-! ## Stub registry, release (non-test) build
(src/lib.rs lines 207–208, 336–344, 436–444, 478–482) -/

namespace Release

/-- Release-build `StubbyStateInner` (line 208): the unit placeholder. -/
def StubbyStateInner : Type := Unit

/-- Release-build `StubbyState`. -/
structure StubbyState where
  inner : StubbyStateInner

/-- The message of the release-build panic (lines 343, 443, 481). -/
def outsideTestMsg : String :=
  "should not have stubs being used outside of #[cfg(test)]"

/-- Release-build `StubbyState::insert` (lines 336–344): always panics. -/
def StubbyState.insert (_ : StubbyState) (_ : StubbyName) (T : Ty)
    (_ : T.denote) : Except String StubbyState :=
  .error outsideTestMsg

/-- Release-build `StubbyState::insert_with` (lines 436–444): always
panics. -/
def StubbyState.insertWith (_ : StubbyState) (_ : StubbyName) (T : Ty)
    (_ : Unit → T.denote) : Except String StubbyState :=
  .error outsideTestMsg

/-- Release-build `StubbyState::get` (lines 478–482): always panics. -/
def StubbyState.get (T : Ty) (_ : StubbyState) (_ : StubbyName) :
    Except String (Option T.denote) :=
  .error outsideTestMsg

end Release

/-! ## Helper lemmas for the resolver -/

/-- The `::f` suffix contributed by the local marker function `fn f()`
inside the implicit arm: `type_name` of that function is the enclosing
callable's qualified path followed by `::f`. -/
def fSuffix : List Char := "::f".data

theorem fSuffix_eq_chars : fSuffix = [':', ':', 'f'] := rfl

theorem closureMarkerRev_eq : closureMarker.reverse = closureMarkerRev := rfl

theorem dropLast3_append_fSuffix (P : List Char) :
    dropLast3 (P ++ fSuffix) = P := by
  simp [dropLast3, fSuffix_eq_chars, List.reverse_append]

theorem trimClosureRev_no_marker (s : List Char)
    (h : ¬ closureMarkerRev.isPrefixOf s) : trimClosureRev s = s := by
  rw [trimClosureRev]
  simp [h]

theorem trimClosureRev_marker_append (t : List Char) :
    trimClosureRev (closureMarkerRev ++ t) = trimClosureRev t := by
  rw [trimClosureRev]
  have h : closureMarkerRev.isPrefixOf (closureMarkerRev ++ t) := by
    rw [List.isPrefixOf_iff_prefix]
    exact List.prefix_append _ _
  simp [h, List.drop_left]

theorem not_prefix_rev_of_not_suffix (m s : List Char)
    (h : ¬ m <:+ s) : ¬ m.reverse.isPrefixOf s.reverse := by
  rw [List.isPrefixOf_iff_prefix, List.reverse_prefix]
  exact h

theorem trimEndClosure_no_marker (s : List Char)
    (h : ¬ closureMarker <:+ s) : trimEndClosure s = s := by
  unfold trimEndClosure
  rw [trimClosureRev_no_marker, List.reverse_reverse]
  exact not_prefix_rev_of_not_suffix _ _ h

theorem trimEndClosure_append_marker (p : List Char) :
    trimEndClosure (p ++ closureMarker) = trimEndClosure p := by
  unfold trimEndClosure
  rw [List.reverse_append, closureMarkerRev_eq, trimClosureRev_marker_append]

theorem fnNameExplicit_no_generic (P : List Char)
    (hg : P.getLast? ≠ some '>') : fnNameExplicit P = P := by
  rw [fnNameExplicit, if_neg hg]

theorem fnNameImplicit_plain (P : List Char)
    (hc : ¬ closureMarker <:+ P) :
    fnNameImplicit (P ++ fSuffix) = P := by
  rw [fnNameImplicit, dropLast3_append_fSuffix]
  exact trimEndClosure_no_marker P hc

theorem fnNameImplicit_closure (P : List Char)
    (hc : ¬ closureMarker <:+ P) :
    fnNameImplicit (P ++ closureMarker ++ fSuffix) = P := by
  rw [fnNameImplicit, dropLast3_append_fSuffix, trimEndClosure_append_marker]
  exact trimEndClosure_no_marker P hc

/-! ## Claim theorems -/

/-- C1: in a test build, after a sequence of insertions, `get::<T>(name)`
returns `Some` of the value materialized from the most recently inserted
entry under `name` — the (cloned) value `v` for `insert(name, v)`, a
fresh invocation `p ()` for `insert_with(name, p)` — regardless of any
earlier, overwritten entries in the prior state `s`. -/
theorem insert_then_get_roundtrip (s : StubbyState) (name : StubbyName)
    (T : Ty) (v : T.denote) (p : Unit → T.denote) :
    (s.insert name T v).get T name = .ok (some v) ∧
    (s.insertWith name T p).get T name = .ok (some (p ())) := by
  constructor <;>
    simp [StubbyState.get, StubbyState.insert, StubbyState.insertWith,
      btreeInsert, cloneableIntoStubbyFunction, downcast]

/-- C2: for a non-generic callable with qualified path `P` whose call
site is not nested in a closure, the implicit arm (fed the descriptor
`P ++ "::f"` of the local marker function) and the explicit arm (fed the
descriptor `P` of the callable itself) resolve to the same name. -/
theorem implicit_eq_explicit (P : List Char)
    (hc : ¬ closureMarker <:+ P) (hg : P.getLast? ≠ some '>') :
    fnNameImplicit (P ++ fSuffix) = fnNameExplicit P := by
  rw [fnNameImplicit_plain P hc, fnNameExplicit_no_generic P hg]

/-- Witness for C2 at the concrete path `crate::foo`. -/
theorem implicit_eq_explicit_witness :
    fnNameImplicit ("crate::foo".data ++ fSuffix) =
      fnNameExplicit ("crate::foo".data) :=
  implicit_eq_explicit ("crate::foo".data) (by decide) (by decide)

/-- C3 (divergence evaluation): the explicit arm does not collapse all
instantiations of a generic callable to one identifier.  `g::<i32>`
(descriptor `crate::g<i32>`) resolves to `crate::g`, but
`g::<Vec<i32>>` (descriptor `crate::g<alloc::vec::Vec<i32>>`) resolves
to `crate::g<alloc::vec::Vec`: the stateful trim stops at the first `<`
met from the end, not at the opening-angle-bracket boundary, leaving a
generic remnant and a distinct identifier. -/
theorem explicit_generic_nested_divergence :
    fnNameExplicit ("crate::g<i32>".data) = "crate::g".data ∧
    fnNameExplicit ("crate::g<alloc::vec::Vec<i32>>".data) =
      "crate::g<alloc::vec::Vec".data ∧
    fnNameExplicit ("crate::g<i32>".data) ≠
      fnNameExplicit ("crate::g<alloc::vec::Vec<i32>>".data) := by
  refine ⟨by decide, by decide, by decide⟩

/-- C4: in a test build, if an entry is present under `name` but its
payload was stored at a type `T` different from the requested type `T'`,
`get::<T'>(name)` is the panic `"incorrect type supplied for {name}"`
(whose message contains the resolved name), never a recoverable `None`. -/
theorem get_type_mismatch (s : StubbyState) (name : StubbyName)
    (T T' : Ty) (v : T.denote) (h : T ≠ T') :
    (s.insert name T v).get T' name =
      .error ("incorrect type supplied for " ++ name) ∧
    (s.insert name T v).get T' name ≠ .ok none := by
  constructor
  · simp [StubbyState.get, StubbyState.insert, btreeInsert,
      cloneableIntoStubbyFunction, downcast, h]
  · simp [StubbyState.get, StubbyState.insert, btreeInsert,
      cloneableIntoStubbyFunction, downcast, h]

/-- Witness for C4: `insert(name, 5_i32)` then `get::<String>(name)`. -/
theorem get_type_mismatch_witness :
    (StubbyState.new.insert "crate::foo" Ty.tInt 5).get Ty.tStr "crate::foo" =
      .error ("incorrect type supplied for " ++ "crate::foo") ∧
    (StubbyState.new.insert "crate::foo" Ty.tInt 5).get Ty.tStr "crate::foo" ≠
      .ok none :=
  get_type_mismatch StubbyState.new "crate::foo" Ty.tInt Ty.tStr 5 (by decide)

/-- C5: in a test build, with no entry under `name`, the conditional
path `get::<T>(name)` returns `None` (no value, no panic), and the
unconditional `stub!` path panics with
`"no stub configured for {name}"`, naming the unresolved identifier. -/
theorem get_absent (s : StubbyState) (name : StubbyName) (T : Ty)
    (h : s.inner name = none) :
    s.get T name = .ok none ∧
    stubLookup T s name = .error ("no stub configured for " ++ name) := by
  refine ⟨?_, ?_⟩
  · simp [StubbyState.get, h]
  · simp [stubLookup, StubbyState.get, h]

/-- Witness for C5 on the empty registry. -/
theorem get_absent_witness :
    StubbyState.new.get Ty.tInt "crate::foo" = .ok none ∧
    stubLookup Ty.tInt StubbyState.new "crate::foo" =
      .error ("no stub configured for " ++ "crate::foo") :=
  get_absent StubbyState.new "crate::foo" Ty.tInt rfl

/-- C6: `Clone::clone` on any registry, populated or not, yields a fresh
empty registry: every `get` on the clone returns `None`. -/
theorem clone_is_empty (r : StubbyState) (name : StubbyName) (T : Ty) :
    r.clone.get T name = .ok none := rfl

/-- C7: registry comparisons are constant — any two registries compare
equal (`PartialEq`), order as `Equal` (`Ord`/`PartialOrd`), and hashing
writes nothing to the hasher state. -/
theorem registry_comparisons_constant (r1 r2 : StubbyState) :
    r1.beq r2 = true ∧
    r1.cmp r2 = Ordering.eq ∧
    r1.partialCmp r2 = some Ordering.eq ∧
    ∀ hs : List Nat, r1.hashWrite hs = hs :=
  ⟨rfl, rfl, rfl, fun _ => rfl⟩

/-- C8: the implicit arm invoked from inside an anonymous inline closure
nested in a callable with path `P` (descriptor
`P ++ "::\x7b\x7bclosure\x7d\x7d" ++ "::f"`) resolves to the same name
as at the callable's own top level (descriptor `P ++ "::f"`), and hence
the same as explicit resolution of the callable; no distinct identifier
is produced for the closure. -/
theorem implicit_in_closure_eq_top_level (P : List Char)
    (hc : ¬ closureMarker <:+ P) (hg : P.getLast? ≠ some '>') :
    fnNameImplicit (P ++ closureMarker ++ fSuffix) =
      fnNameImplicit (P ++ fSuffix) ∧
    fnNameImplicit (P ++ closureMarker ++ fSuffix) = fnNameExplicit P := by
  rw [fnNameImplicit_closure P hc, fnNameImplicit_plain P hc,
    fnNameExplicit_no_generic P hg]
  exact ⟨rfl, rfl⟩

/-- Witness for C8 at the concrete path `crate::foo`. -/
theorem implicit_in_closure_eq_top_level_witness :
    fnNameImplicit ("crate::foo".data ++ closureMarker ++ fSuffix) =
      fnNameImplicit ("crate::foo".data ++ fSuffix) ∧
    fnNameImplicit ("crate::foo".data ++ closureMarker ++ fSuffix) =
      fnNameExplicit ("crate::foo".data) :=
  implicit_in_closure_eq_top_level ("crate::foo".data) (by decide) (by decide)

/-- C9: in a release (non-test) build the registry's storage is the unit
placeholder, and `insert`, `insert_with` and `get` all unconditionally
panic with the stub-facility-used-outside-test-build message. -/
theorem release_operations_always_panic (s : Release.StubbyState)
    (name : StubbyName) (T : Ty) (v : T.denote) (p : Unit → T.denote) :
    Release.StubbyStateInner = Unit ∧
    s.insert name T v = .error Release.outsideTestMsg ∧
    s.insertWith name T p = .error Release.outsideTestMsg ∧
    Release.StubbyState.get T s name = .error Release.outsideTestMsg :=
  ⟨rfl, rfl, rfl, rfl⟩

/-- C10 (frame property): inserting under `n1` (by value or by
producer) leaves `get::<T'>(n2)` unchanged for every other name
`n2 ≠ n1`. -/
theorem insert_frame (s : StubbyState) (n1 n2 : StubbyName) (T T' : Ty)
    (v : T.denote) (p : Unit → T.denote) (h : n1 ≠ n2) :
    (s.insert n1 T v).get T' n2 = s.get T' n2 ∧
    (s.insertWith n1 T p).get T' n2 = s.get T' n2 := by
  have h2 : n2 ≠ n1 := fun e => h e.symm
  constructor <;>
    simp [StubbyState.get, StubbyState.insert, StubbyState.insertWith,
      btreeInsert, h2]

/-- Witness for C10 on the empty registry with names `a` and `b`. -/
theorem insert_frame_witness :
    (StubbyState.new.insert "a" Ty.tInt 0).get Ty.tInt "b" =
      StubbyState.new.get Ty.tInt "b" ∧
    (StubbyState.new.insertWith "a" Ty.tInt (fun _ => 0)).get Ty.tInt "b" =
      StubbyState.new.get Ty.tInt "b" :=
  insert_frame StubbyState.new "a" "b" Ty.tInt Ty.tInt 0 (fun _ => 0)
    (by decide)
